import Mathlib

/-!
Shallow embedding of the CV/blog publishing toolkit
(bcamarneiro.github.io): the CV Markdown exporter, the CV LinkedIn-text
exporter, the DEV.to cross-posting script and the tailored-PDF entry
guard, together with proofs of the specification's claims about them.

JS conventions modelled explicitly:
  * `string | null` and optional fields become `Option String`;
    JS truthiness of a string (`!s`) is `s ≠ ""` on the `some` case.
  * `Array.prototype.join('\n')` becomes `joinNL`.
  * `String.prototype.split('-')` becomes `jsSplitDash` (single-character
    separator split, which is what the source uses).
  * `parseInt` is modelled on the digit-leading strings produced by
    splitting `YYYY-MM` date strings: longest leading digit run, `none`
    (JS `NaN`) when there is none.
  * `new Date(y, m).toLocaleDateString('en-US', \x7bmonth: 'short',
    year: 'numeric'\x7d)` becomes `jsMonthYear`, including the JS `Date`
    month-index normalisation (floor division, which for the positive
    divisor 12 coincides with Euclidean division).
-/

/-- `personal` record of the CV JSON document (part_001 lines 29-36). -/
structure Personal where
  name : String
  title : String
  email : String
  location : String
  linkedin : Option String
  github : Option String
deriving DecidableEq

/-- One `experience` entry of the CV JSON document (part_001 lines 38-49). -/
structure Experience where
  id : String
  title : String
  company : String
  location : String
  startDate : String
  endDate : Option String
  description : String
  achievements : List String
  skills : List String
  visibility : Option (List String)
deriving DecidableEq

/-- One technical-skill category (part_001 lines 51-54). -/
structure SkillCategory where
  category : String
  skills : List String
deriving DecidableEq

/-- `skills` record (part_001 lines 50-56). -/
structure Skills where
  technical : List SkillCategory
  soft : Option (List String)
deriving DecidableEq

/-- One `education` entry (part_001 lines 57-66). -/
structure Education where
  id : String
  degree : String
  institution : String
  location : String
  startDate : String
  endDate : Option String
  description : Option String
  visibility : Option (List String)
deriving DecidableEq

/-- One `projects` entry (part_001 lines 67-76). -/
structure Project where
  id : String
  name : String
  description : String
  url : Option String
  github : Option String
  technologies : List String
  highlights : List String
  visibility : Option (List String)
deriving DecidableEq

/-- One `languages` entry (part_001 lines 77-80); named `CVLanguage` here
because `Language` is taken by the ambient library. -/
structure CVLanguage where
  name : String
  proficiency : String
deriving DecidableEq

/-- The whole CV JSON document (`CVData`, part_001 lines 28-81). -/
structure CVData where
  personal : Personal
  summary : String
  experience : List Experience
  skills : Skills
  education : List Education
  projects : Option (List Project)
  languages : Option (List CVLanguage)
deriving DecidableEq

/-- JS truthiness of an optional string: `undefined`, `null` and `""` are
falsy, every other string is truthy. -/
def jsTruthy : Option String → Bool
  | none => false
  | some s => s ≠ ""

/-- `Array.prototype.join('\n')` on the accumulated `lines` array. -/
def joinNL : List String → String
  | [] => ""
  | [a] => a
  | a :: b :: rest => a ++ "\n" ++ joinNL (b :: rest)

/-- Split a character list at every `'-'`, the semantics of the JS
`split('-')` with a single-character separator (part_001 line 85). -/
def splitDashChars : List Char → List (List Char)
  | [] => [[]]
  | c :: cs =>
    if c = '-' then [] :: splitDashChars cs
    else
      match splitDashChars cs with
      | [] => [[c]]
      | p :: ps => (c :: p) :: ps

/-- `dateStr.split('-')` (part_001 line 85). -/
def jsSplitDash (s : String) : List String :=
  (splitDashChars s.data).map fun cs => String.mk cs

/-- Longest leading digit run of a character list. -/
def leadingDigits : List Char → List Char
  | [] => []
  | c :: cs => if c.isDigit then c :: leadingDigits cs else []

/-- Value of a digit list read in base 10. -/
def digitsToNat (ds : List Char) : Nat :=
  ds.foldl (fun n c => n * 10 + (c.toNat - 48)) 0

/-- JS `parseInt` restricted to the digit-leading strings this program
feeds it (the components of `YYYY-MM` date strings): the longest leading
digit run, `none` standing for `NaN` when there is none. -/
def parseIntJS (s : String) : Option Nat :=
  let ds := leadingDigits s.data
  if ds.isEmpty then none else some (digitsToNat ds)

/-- Abbreviated en-US month names indexed from 0, as produced by
`toLocaleDateString('en-US', ...)`. -/
def monthAbbrev (i : Nat) : String :=
  (["Jan", "Feb", "Mar", "Apr", "May", "Jun",
    "Jul", "Aug", "Sep", "Oct", "Nov", "Dec"]).getD i ""

/-- `new Date(year, monthIndex).toLocaleDateString('en-US',
\x7bmonth: 'short', year: 'numeric'\x7d)` (part_001 lines 87-88): the JS
`Date` constructor first maps a two-digit year argument 0-99 to
1900-1999, then normalises an out-of-range month index into the year. -/
def jsMonthYear (year : Int) (monthIndex : Int) : String :=
  let yr := if 0 ≤ year ∧ year ≤ 99 then 1900 + year else year
  let y := yr + monthIndex / 12
  let mi := monthIndex % 12
  monthAbbrev mi.toNat ++ " " ++ toString y

/-- `formatDate` (part_001 lines 83-89). `none` is JS `null`; the JS
falsiness check `!dateStr` also catches the empty string. -/
def formatDate (dateStr : Option String) : String :=
  match dateStr with
  | none => "Present"
  | some s =>
    if s = "" then "Present"
    else
      let parts := jsSplitDash s
      let year := parts.headD ""
      match parts.get? 1 with
      | none => year
      | some month =>
        if month = "" then year
        else
          match parseIntJS year, parseIntJS month with
          | some y, some m => jsMonthYear (Int.ofNat y) (Int.ofNat m - 1)
          | _, _ => "Invalid Date"

/-- `isVisible` of the Markdown exporter (part_001 lines 91-95). -/
def isVisible (visibility : Option (List String)) (includeHidden : Bool) : Bool :=
  if includeHidden then true
  else
    match visibility with
    | none => true
    | some v => v.contains "all"

/-- Header block of `exportToMarkdown` (part_001 lines 100-107); the JS
`if (cv.personal.linkedin)` and `if (cv.personal.github)` are truthiness
checks, so an empty string is skipped like a missing one. -/
def headerLines (p : Personal) : List String :=
  ["# " ++ p.name, "**" ++ p.title ++ "**", "", p.location ++ " | " ++ p.email]
    ++ (if jsTruthy p.linkedin then ["LinkedIn: " ++ p.linkedin.getD ""] else [])
    ++ (if jsTruthy p.github then ["GitHub: " ++ p.github.getD ""] else [])
    ++ [""]

/-- Lines pushed for one visible experience entry
(part_001 lines 120-140). -/
def expLines (exp : Experience) : List String :=
  ["### " ++ exp.title ++ " at " ++ exp.company,
   "*" ++ exp.location ++ " | " ++ formatDate (some exp.startDate) ++ " - "
     ++ formatDate exp.endDate ++ "*",
   "",
   exp.description,
   ""]
    ++ (if exp.achievements.length > 0 then
          ["**Key Achievements:**"]
            ++ exp.achievements.map (fun a => "- " ++ a) ++ [""]
        else [])
    ++ (if exp.skills.length > 0 then
          ["**Technologies:** " ++ String.intercalate ", " exp.skills, ""]
        else [])

/-- Lines pushed for one visible education entry (part_001 lines
161-170); `edu.endDate || 'Present'` and `if (edu.description)` are JS
truthiness checks, so empty strings behave like missing values. -/
def eduLines (edu : Education) : List String :=
  ["### " ++ edu.degree,
   "*" ++ edu.institution ++ ", " ++ edu.location ++ " | " ++ edu.startDate
     ++ " - " ++ (if jsTruthy edu.endDate then edu.endDate.getD "" else "Present")
     ++ "*"]
    ++ (if jsTruthy edu.description then ["", edu.description.getD ""] else [])
    ++ [""]

/-- Lines pushed for one visible project entry (part_001 lines
179-201). -/
def projLines (proj : Project) : List String :=
  ["### " ++ proj.name, "", proj.description, ""]
    ++ (if jsTruthy proj.url then ["**URL:** " ++ proj.url.getD ""] else [])
    ++ (if jsTruthy proj.github then ["**GitHub:** " ++ proj.github.getD ""] else [])
    ++ (if proj.highlights.length > 0 then
          ["", "**Highlights:**"] ++ proj.highlights.map (fun h => "- " ++ h)
        else [])
    ++ (if proj.technologies.length > 0 then
          ["", "**Technologies:** " ++ String.intercalate ", " proj.technologies]
        else [])
    ++ [""]

/-- `cv.experience.filter(exp => isVisible(exp, includeHidden))`
(part_001 line 119). -/
def visibleExperience (cv : CVData) (includeHidden : Bool) : List Experience :=
  cv.experience.filter fun exp => isVisible exp.visibility includeHidden

/-- `cv.education.filter(edu => isVisible(edu, includeHidden))`
(part_001 line 160). -/
def visibleEducation (cv : CVData) (includeHidden : Bool) : List Education :=
  cv.education.filter fun edu => isVisible edu.visibility includeHidden

/-- `cv.projects.filter(proj => isVisible(proj, includeHidden))`
(part_001 line 174), on the empty list when `cv.projects` is absent. -/
def visibleProjects (cv : CVData) (includeHidden : Bool) : List Project :=
  (cv.projects.getD []).filter fun proj => isVisible proj.visibility includeHidden

/-- Skills section lines (part_001 lines 143-154). -/
def skillsLines (sk : Skills) : List String :=
  ["## Skills", ""]
    ++ (sk.technical.map fun c =>
          ["**" ++ c.category ++ ":** " ++ String.intercalate ", " c.skills, ""]).flatten
    ++ (match sk.soft with
        | some soft =>
          if soft.length > 0
          then ["**Soft Skills:** " ++ String.intercalate ", " soft, ""]
          else []
        | none => [])

/-- Projects section (part_001 lines 172-203): emitted only when the
document has a non-empty `projects` array with at least one visible
entry. -/
def projectsSection (cv : CVData) (includeHidden : Bool) : List String :=
  match cv.projects with
  | some projs =>
    if projs.length > 0 then
      if (visibleProjects cv includeHidden).length > 0 then
        ["## Projects", ""] ++ ((visibleProjects cv includeHidden).map projLines).flatten
      else []
    else []
  | none => []

/-- Languages section (part_001 lines 205-213). -/
def languagesSection (cv : CVData) : List String :=
  match cv.languages with
  | some langs =>
    if langs.length > 0 then
      ["## Languages", ""]
        ++ langs.map (fun l => "- **" ++ l.name ++ ":** " ++ l.proficiency)
        ++ [""]
    else []
  | none => []

/-- The full `lines` array pushed by `exportToMarkdown`
(part_001 lines 97-213). -/
def exportLines (cv : CVData) (includeHidden : Bool) : List String :=
  headerLines cv.personal
    ++ ["## Summary", "", cv.summary, ""]
    ++ ["## Experience", ""]
    ++ ((visibleExperience cv includeHidden).map expLines).flatten
    ++ skillsLines cv.skills
    ++ ["## Education", ""]
    ++ ((visibleEducation cv includeHidden).map eduLines).flatten
    ++ projectsSection cv includeHidden
    ++ languagesSection cv

/-- `exportToMarkdown` (part_001 lines 97-216): the full list of pushed
lines, joined with `'\n'` (line 215). -/
def exportToMarkdown (cv : CVData) (includeHidden : Bool) : String :=
  joinNL (exportLines cv includeHidden)

/-- `isVisible` of the LinkedIn exporter (part_002 lines 83-86), which has
no include-hidden flag. -/
def isVisibleLinkedIn (visibility : Option (List String)) : Bool :=
  match visibility with
  | none => true
  | some v => v.contains "all"

/-- `'═'.repeat(50)`-style string repetition. -/
def repeatStr (s : String) (n : Nat) : String :=
  String.join (List.replicate n s)

/-- `truncateWithWarning` (part_002 lines 88-93), with the `console.error`
side channel made explicit as a stderr line list threaded through: the
text itself is returned in both branches; over the limit two warning
lines are appended to stderr. -/
def truncateWithWarning (text : String) (limit : Nat) (label : String)
    (stderr : List String) : String × List String :=
  if text.length ≤ limit then (text, stderr)
  else
    (text,
     stderr
       ++ ["\n⚠️  Warning: " ++ label ++ " exceeds " ++ toString limit
             ++ " characters (" ++ toString text.length ++ " chars)",
           "   Consider shortening by " ++ toString (text.length - limit)
             ++ " characters\n"])

/-- The `roleLines` array built for one experience entry
(part_002 lines 153-169). -/
def roleLines (exp : Experience) : List String :=
  [exp.description, ""]
    ++ (if exp.achievements.length > 0 then
          "Key Achievements:" :: exp.achievements.map (fun a => "• " ++ a)
        else [])
    ++ (if exp.skills.length > 0 then
          ["", "Technologies: " ++ String.intercalate ", " exp.skills]
        else [])

/-- The fixed lines printed above each role's text
(part_002 lines 146-150). -/
def roleHeader (exp : Experience) : List String :=
  [repeatStr "═" 50,
   exp.title.toUpper,
   exp.company ++ " • " ++ exp.location,
   repeatStr "─" 50,
   ""]

/-- One iteration of the `generateExperience` loop (part_002 lines
145-173), threading the accumulated output lines and the stderr lines. -/
def genExpStep (acc : List String × List String) (exp : Experience) :
    List String × List String :=
  let roleText := joinNL (roleLines exp)
  let tr := truncateWithWarning roleText 2000
    (exp.company ++ " - " ++ exp.title) acc.2
  (acc.1 ++ roleHeader exp ++ [tr.1, ""], tr.2)

/-- `generateExperience` (part_002 lines 140-176): the output text paired
with the stderr line list after the run. -/
def generateExperience (cv : CVData) (stderr : List String) :
    String × List String :=
  let visible := cv.experience.filter fun exp => isVisibleLinkedIn exp.visibility
  let res := visible.foldl genExpStep ([], stderr)
  (joinNL res.1, res.2)

/-- `generateHeadline` (part_002 lines 95-101). -/
def generateHeadline (cv : CVData) (stderr : List String) :
    String × List String :=
  let headline := cv.personal.title
    ++ " | React, Next.js, TypeScript | Building high-performance web applications"
  truncateWithWarning headline 220 "Headline" stderr

/-- `crosspost.devTo` frontmatter record (publish-to-devto.ts usage and
the frontmatter schema). -/
structure DevToMeta where
  published : Bool
  url : Option String
deriving DecidableEq

/-- Blog-post frontmatter as consumed by publish-to-devto.ts. -/
structure Frontmatter where
  title : String
  description : Option String
  tags : Option (List String)
  draft : Bool
  canonicalUrl : Option String
  crosspostDevTo : Option DevToMeta
deriving DecidableEq

/-- A parsed post file: frontmatter plus body (`matter(fileContent)`). -/
structure PostFile where
  frontmatter : Frontmatter
  content : String
deriving DecidableEq

/-- The `DevToArticle` payload (publish-to-devto.ts lines 29-38, built at
lines 76-83); the optional fields the script never sets (`series`,
`main_image`) are omitted, matching the JSON actually serialised, since
`JSON.stringify` drops `undefined` properties. -/
structure DevToArticle where
  title : String
  body_markdown : String
  published : Bool
  tags : Option (List String)
  canonical_url : String
  description : Option String
deriving DecidableEq

/-- `SITE_URL` (publish-to-devto.ts line 27). -/
def SITE_URL : String := "https://camarneiro.com"

/-- `frontmatter.crosspost?.devTo?.published` truthiness
(publish-to-devto.ts line 66). -/
def alreadyPublished (fm : Frontmatter) : Bool :=
  (fm.crosspostDevTo.map (fun m => m.published)).getD false

/-- `frontmatter.canonicalUrl || SITE_URL/blog/slug`
(publish-to-devto.ts line 74); `||` is JS truthiness, so an empty string
also falls back to the site URL. -/
def canonicalUrlFor (fm : Frontmatter) (slug : String) : String :=
  if jsTruthy fm.canonicalUrl then fm.canonicalUrl.getD ""
  else SITE_URL ++ "/blog/" ++ slug

/-- The article object POSTed to the DEV.to API
(publish-to-devto.ts lines 76-83). -/
def mkArticle (fm : Frontmatter) (content : String) (slug : String) :
    DevToArticle :=
  { title := fm.title
    body_markdown := content
    published := !fm.draft
    tags := fm.tags.map fun ts => ts.take 4
    canonical_url := canonicalUrlFor fm slug
    description := fm.description }

/-- Observable side effects of one script run, in order. -/
inductive Effect where
  | readFile : Effect
  | httpPost : DevToArticle → Effect
  | printErr : String → Effect
  | printOut : String → Effect
deriving DecidableEq

/-- Whether an effect is the HTTP POST to the article API. -/
def isHttpPost : Effect → Bool
  | Effect.httpPost _ => true
  | _ => false

/-- How a script run ends: `process.exit(code)` or a normal return. -/
inductive RunOutcome where
  | exited : Nat → RunOutcome
  | returned : RunOutcome
deriving DecidableEq

/-- `publishToDevTo` (publish-to-devto.ts lines 47-128) as a function of
its ambient inputs: the `DEVTO_API_KEY` environment variable, the slug,
the post file (`none` when `fs.existsSync` fails), and whether the HTTP
response is `ok`. Returns the outcome and the ordered effect trace;
`console.log` bookkeeping lines are kept only where a claim mentions
them. -/
def publishToDevTo (apiKey : Option String) (slug : String)
    (post : Option PostFile) (httpOk : Bool) :
    RunOutcome × List Effect :=
  if !jsTruthy apiKey then
    (RunOutcome.exited 1,
     [Effect.printErr "❌ Error: DEVTO_API_KEY environment variable is required",
      Effect.printOut "Get your API key from https://dev.to/settings/extensions"])
  else
    match post with
    | none =>
      (RunOutcome.exited 1,
       [Effect.printErr ("❌ Error: Post not found at " ++ slug ++ ".md")])
    | some p =>
      if alreadyPublished p.frontmatter then
        (RunOutcome.returned,
         [Effect.readFile,
          Effect.printOut "⚠️  This post is already published to DEV.to",
          Effect.printOut ("   URL: "
            ++ ((p.frontmatter.crosspostDevTo.bind (fun m => m.url)).getD "undefined")),
          Effect.printOut "   To update, use the update command instead."])
      else
        let article := mkArticle p.frontmatter p.content slug
        let pre : List Effect :=
          [Effect.readFile,
           Effect.printOut ("📝 Publishing \"" ++ p.frontmatter.title
             ++ "\" to DEV.to..."),
           Effect.httpPost article]
        if httpOk then
          (RunOutcome.returned, pre ++ [Effect.printOut "✅ Successfully published to DEV.to!"])
        else
          (RunOutcome.exited 1,
           pre ++ [Effect.printErr "❌ Error publishing to DEV.to: DEV.to API error"])

/-- A concrete post file already marked as cross-posted, used to evaluate
the publisher on the already-published path. -/
def alreadyPostedFile : PostFile :=
  { frontmatter :=
      { title := "Hello World", description := some "d",
        tags := some ["javascript"], draft := false,
        canonicalUrl := none,
        crosspostDevTo := some { published := true, url := some "https://dev.to/x" } },
    content := "body text" }

/-- A concrete post file without cross-post marks, tags or canonical URL,
used to evaluate the publisher on the posting path. -/
def freshPostFile : PostFile :=
  { frontmatter :=
      { title := "Fresh", description := some "d",
        tags := some ["a", "b", "c", "d", "e"], draft := true,
        canonicalUrl := none, crosspostDevTo := none },
    content := "body" }

/-- A concrete post file with six frontmatter tags, used to evaluate the
tag truncation. -/
def taggedPostFile : PostFile :=
  { frontmatter :=
      { title := "Tagged", description := none,
        tags := some ["a", "b", "c", "d", "e", "f"], draft := false,
        canonicalUrl := none, crosspostDevTo := none },
    content := "body" }

/-- A concrete experience entry visible to everyone. -/
def witnessExperience : Experience :=
  { id := "e1", title := "Engineer", company := "Acme",
    location := "Lisbon", startDate := "2020-01", endDate := none,
    description := "Built things.", achievements := ["Shipped v1"],
    skills := ["TS"], visibility := none }

/-- A concrete experience entry hidden from the default export. -/
def hiddenExperience : Experience :=
  { id := "h", title := "T", company := "C", location := "L",
    startDate := "2020-01", endDate := none, description := "d",
    achievements := [], skills := [], visibility := some ["tailored"] }

/-- A concrete CV document around `witnessExperience`. -/
def witnessCV : CVData :=
  { personal :=
      { name := "B", title := "Dev", email := "b@x.y",
        location := "PT", linkedin := none, github := none },
    summary := "Summary.", experience := [witnessExperience],
    skills := { technical := [], soft := none }, education := [],
    projects := none, languages := none }

/-- A concrete CV document whose only experience entry is hidden. -/
def hiddenCV : CVData :=
  { personal :=
      { name := "B", title := "Dev", email := "b@x.y",
        location := "PT", linkedin := none, github := none },
    summary := "Summary.", experience := [hiddenExperience],
    skills := { technical := [], soft := none }, education := [],
    projects := none, languages := none }

/-- `main` of the Markdown exporter (part_001 lines 218-233): the CV JSON
file is `none` when `fs.existsSync` fails, in which case the script
writes to stderr and exits 1; otherwise it writes the export to stdout. -/
def cvMarkdownMain (cvFile : Option CVData) (args : List String)
    (cvJsonPath : String) : RunOutcome × List Effect :=
  let includeHidden := args.contains "--include-hidden"
  match cvFile with
  | none =>
    (RunOutcome.exited 1,
     [Effect.printErr ("Error: CV JSON not found at " ++ cvJsonPath)])
  | some cv =>
    (RunOutcome.returned,
     [Effect.readFile, Effect.printOut (exportToMarkdown cv includeHidden)])

/-- The missing-input guard of the LinkedIn exporter's `main`
(part_002 lines 222-225). -/
def cvLinkedInGuard (cvFileExists : Bool) (cvJsonPath : String) :
    RunOutcome × List Effect :=
  if cvFileExists then (RunOutcome.returned, [])
  else
    (RunOutcome.exited 1,
     [Effect.printErr ("Error: CV JSON not found at " ++ cvJsonPath)])

/-- The missing-input guard of `generatePDF` in generate-tailored-pdf.ts
(lines 244-247): a missing Markdown input file prints an error and exits
1; otherwise the script proceeds to the headless-browser stage. -/
def generatePDFGuard (inputExists : Bool) (inputPath : String) :
    RunOutcome × List Effect :=
  if inputExists then (RunOutcome.returned, [])
  else
    (RunOutcome.exited 1,
     [Effect.printErr ("❌ Error: File not found: " ++ inputPath)])

/-- `m` occurs character for character inside `s`. -/
def Substr (m s : String) : Prop :=
  ∃ p q, s = p ++ m ++ q

theorem joinNL_cons_of_ne (a : String) (l : List String) (h : l ≠ []) :
    joinNL (a :: l) = a ++ "\n" ++ joinNL l := by
  cases l with
  | nil => exact absurd rfl h
  | cons b t => rfl

theorem substr_of_mem_joinNL {l : String} {ls : List String} (h : l ∈ ls) :
    Substr l (joinNL ls) := by
  induction ls with
  | nil => cases h
  | cons a t ih =>
    rcases List.mem_cons.mp h with rfl | hmem
    · cases t with
      | nil =>
        exact ⟨"", "", by simp [joinNL]⟩
      | cons b r =>
        exact ⟨"", "\n" ++ joinNL (b :: r), by
          simp [joinNL, String.append_assoc]⟩
    · have hne : t ≠ [] := List.ne_nil_of_mem hmem
      obtain ⟨p, q, hpq⟩ := ih hmem
      refine ⟨a ++ "\n" ++ p, q, ?_⟩
      rw [joinNL_cons_of_ne a t hne, hpq]
      simp [String.append_assoc]

theorem substr_trans {m l s : String} (h1 : Substr m l) (h2 : Substr l s) :
    Substr m s := by
  obtain ⟨a, b, rfl⟩ := h1
  obtain ⟨p, q, rfl⟩ := h2
  exact ⟨p ++ a, b ++ q, by simp [String.append_assoc]⟩

theorem substr_of_mem_line {m l : String} {ls : List String} (h : l ∈ ls)
    (x y : String) (hl : l = x ++ m ++ y) : Substr m (joinNL ls) :=
  substr_trans ⟨x, y, hl⟩ (substr_of_mem_joinNL h)

theorem mem_exportLines_of_mem_expLines {cv : CVData} {ih : Bool}
    {exp : Experience} (hexp : exp ∈ visibleExperience cv ih) {l : String}
    (hl : l ∈ expLines exp) : l ∈ exportLines cv ih := by
  have hflat : l ∈ ((visibleExperience cv ih).map expLines).flatten :=
    List.mem_flatten.mpr ⟨expLines exp, List.mem_map_of_mem expLines hexp, hl⟩
  simp only [exportLines, List.mem_append]
  tauto

theorem mem_expLines_title_line (exp : Experience) :
    ("### " ++ exp.title ++ " at " ++ exp.company) ∈ expLines exp := by
  simp [expLines]

theorem mem_expLines_achievement {exp : Experience} {a : String}
    (ha : a ∈ exp.achievements) : ("- " ++ a) ∈ expLines exp := by
  have hm : ("- " ++ a) ∈ exp.achievements.map (fun x => "- " ++ x) :=
    List.mem_map_of_mem _ ha
  have hlen : 0 < exp.achievements.length :=
    List.length_pos.mpr (List.ne_nil_of_mem ha)
  unfold expLines
  rw [if_pos hlen]
  simp only [List.mem_append, List.mem_cons]
  tauto

/-- C1: the Markdown export output contains, character for character, the
title, the company, and every achievement string of every visible
experience entry, for every CV document and include-hidden setting. -/
theorem C1_export_preserves_visible_experience (cv : CVData)
    (includeHidden : Bool) (exp : Experience) (hmem : exp ∈ cv.experience)
    (hvis : isVisible exp.visibility includeHidden = true) :
    Substr exp.title (exportToMarkdown cv includeHidden) ∧
    Substr exp.company (exportToMarkdown cv includeHidden) ∧
    ∀ a ∈ exp.achievements, Substr a (exportToMarkdown cv includeHidden) := by
  have hexp : exp ∈ visibleExperience cv includeHidden :=
    List.mem_filter.mpr ⟨hmem, hvis⟩
  have htitle : ("### " ++ exp.title ++ " at " ++ exp.company)
      ∈ exportLines cv includeHidden :=
    mem_exportLines_of_mem_expLines hexp (mem_expLines_title_line exp)
  refine ⟨?_, ?_, ?_⟩
  · exact substr_of_mem_line htitle "### " (" at " ++ exp.company)
      (by simp [String.append_assoc])
  · exact substr_of_mem_line htitle ("### " ++ exp.title ++ " at ") ""
      (by simp [String.append_assoc])
  · intro a ha
    have hach : ("- " ++ a) ∈ exportLines cv includeHidden :=
      mem_exportLines_of_mem_expLines hexp (mem_expLines_achievement ha)
    exact substr_of_mem_line hach "- " "" (by simp)

/-- Witness for C1 at a concrete document. -/
theorem C1_witness :
    Substr "Engineer" (exportToMarkdown witnessCV false) ∧
    Substr "Acme" (exportToMarkdown witnessCV false) ∧
    Substr "Shipped v1" (exportToMarkdown witnessCV false) := by
  have h := C1_export_preserves_visible_experience witnessCV false
    witnessExperience (by simp [witnessCV]) (by decide)
  exact ⟨h.1, h.2.1, h.2.2 "Shipped v1" (by simp [witnessExperience])⟩

/-- C2: a post whose `crosspost.devTo.published` frontmatter flag is true
makes the publish operation return normally without performing any HTTP
POST to the article API. -/
theorem C2_already_published_not_resubmitted (apiKey : Option String)
    (slug : String) (p : PostFile) (httpOk : Bool)
    (hkey : jsTruthy apiKey = true)
    (hpub : alreadyPublished p.frontmatter = true) :
    (publishToDevTo apiKey slug (some p) httpOk).1 = RunOutcome.returned ∧
    ∀ r ∈ (publishToDevTo apiKey slug (some p) httpOk).2,
      isHttpPost r = false := by
  constructor
  · simp [publishToDevTo, hkey, hpub]
  · intro r hr
    simp [publishToDevTo, hkey, hpub] at hr
    rcases hr with rfl | rfl | rfl | rfl <;> rfl

/-- Witness for C2: a concrete already-published post. -/
theorem C2_witness :
    (publishToDevTo (some "key") "hello" (some alreadyPostedFile) true).1
        = RunOutcome.returned ∧
    isHttpPost Effect.readFile = false := by
  have h := C2_already_published_not_resubmitted (some "key") "hello"
    alreadyPostedFile true (by decide) (by decide)
  exact ⟨h.1, h.2 Effect.readFile
    (by simp [publishToDevTo, jsTruthy, alreadyPublished, alreadyPostedFile])⟩

/-- C3: with the `DEVTO_API_KEY` environment variable unset the publish
operation prints an error and exits with status 1 before any HTTP POST
and before reading the post file. -/
theorem C3_missing_api_key_exits_early (slug : String)
    (post : Option PostFile) (httpOk : Bool) :
    (publishToDevTo none slug post httpOk).1 = RunOutcome.exited 1 ∧
    (∃ m, Effect.printErr m ∈ (publishToDevTo none slug post httpOk).2) ∧
    ∀ r ∈ (publishToDevTo none slug post httpOk).2,
      isHttpPost r = false ∧ r ≠ Effect.readFile := by
  refine ⟨by simp [publishToDevTo, jsTruthy], ?_, ?_⟩
  · exact ⟨"❌ Error: DEVTO_API_KEY environment variable is required",
      by simp [publishToDevTo, jsTruthy]⟩
  · intro r hr
    simp [publishToDevTo, jsTruthy] at hr
    rcases hr with rfl | rfl <;> simp [isHttpPost]

/-- Witness for C3 at a concrete invocation. -/
theorem C3_witness :
    (publishToDevTo none "hello" none true).1 = RunOutcome.exited 1 ∧
    isHttpPost
        (Effect.printErr
          "❌ Error: DEVTO_API_KEY environment variable is required")
      = false ∧
    Effect.printErr "❌ Error: DEVTO_API_KEY environment variable is required"
      ≠ Effect.readFile := by
  have h := C3_missing_api_key_exits_early "hello" none true
  have h2 := h.2.2
    (Effect.printErr "❌ Error: DEVTO_API_KEY environment variable is required")
    (by simp [publishToDevTo, jsTruthy])
  exact ⟨h.1, h2.1, h2.2⟩

/-- C5: with the include-hidden flag the export's entry filters keep every
experience, education and project entry of the document; without it an
entry is kept exactly when it has no `visibility` field or its visibility
list contains `"all"`. -/
theorem C5_visibility_filtering (cv : CVData) :
    visibleExperience cv true = cv.experience ∧
    visibleEducation cv true = cv.education ∧
    visibleProjects cv true = cv.projects.getD [] ∧
    (∀ e : Experience, e ∈ visibleExperience cv false ↔
      e ∈ cv.experience ∧
        (e.visibility = none ∨ "all" ∈ e.visibility.getD [])) ∧
    (∀ e : Education, e ∈ visibleEducation cv false ↔
      e ∈ cv.education ∧
        (e.visibility = none ∨ "all" ∈ e.visibility.getD [])) ∧
    (∀ p : Project, p ∈ visibleProjects cv false ↔
      p ∈ cv.projects.getD [] ∧
        (p.visibility = none ∨ "all" ∈ p.visibility.getD [])) := by
  refine ⟨?_, ?_, ?_, ?_, ?_, ?_⟩
  · exact List.filter_eq_self.mpr fun a _ => by simp [isVisible]
  · exact List.filter_eq_self.mpr fun a _ => by simp [isVisible]
  · exact List.filter_eq_self.mpr fun a _ => by simp [isVisible]
  · intro e
    rw [visibleExperience, List.mem_filter]
    refine and_congr_right fun _ => ?_
    cases h : e.visibility <;> simp [isVisible, h]
  · intro e
    rw [visibleEducation, List.mem_filter]
    refine and_congr_right fun _ => ?_
    cases h : e.visibility <;> simp [isVisible, h]
  · intro p
    rw [visibleProjects, List.mem_filter]
    refine and_congr_right fun _ => ?_
    cases h : p.visibility <;> simp [isVisible, h]

/-- Witness for C5: the filters evaluated on a concrete document with a
single hidden entry. -/
theorem C5_witness :
    visibleExperience hiddenCV true = hiddenCV.experience ∧
    ¬ hiddenExperience ∈ visibleExperience hiddenCV false := by
  refine ⟨(C5_visibility_filtering hiddenCV).1, fun hmem => ?_⟩
  have h := ((C5_visibility_filtering hiddenCV).2.2.2.1 hiddenExperience).mp hmem
  simp [hiddenExperience] at h

/-- C4 counterexample: on a post file already marked as cross-posted the
publish operation performs zero HTTP POSTs, not exactly one. -/
theorem C4_counterexample :
    ¬ ((publishToDevTo (some "key") "hello-world"
        (some alreadyPostedFile) true).2.countP isHttpPost = 1) := by
  decide

/-- C4 (amended): for every run that reaches the POST — API key set, post
file present, post not already marked as cross-posted — exactly one HTTP
POST is performed, and its payload carries the frontmatter title, the post
body, the negated draft flag, the (truncated) frontmatter tags, the
frontmatter description, and the frontmatter canonicalUrl or, when that is
absent, the site URL joined with the slug. -/
theorem C4_single_post_payload (apiKey : Option String) (slug : String)
    (p : PostFile) (httpOk : Bool) (hkey : jsTruthy apiKey = true)
    (hnp : alreadyPublished p.frontmatter = false) :
    ((publishToDevTo apiKey slug (some p) httpOk).2.countP isHttpPost) = 1 ∧
    Effect.httpPost (mkArticle p.frontmatter p.content slug)
      ∈ (publishToDevTo apiKey slug (some p) httpOk).2 ∧
    (mkArticle p.frontmatter p.content slug).title = p.frontmatter.title ∧
    (mkArticle p.frontmatter p.content slug).body_markdown = p.content ∧
    (mkArticle p.frontmatter p.content slug).published
      = !p.frontmatter.draft ∧
    (mkArticle p.frontmatter p.content slug).tags
      = p.frontmatter.tags.map (fun ts => ts.take 4) ∧
    (mkArticle p.frontmatter p.content slug).description
      = p.frontmatter.description ∧
    (jsTruthy p.frontmatter.canonicalUrl = false →
      (mkArticle p.frontmatter p.content slug).canonical_url
        = SITE_URL ++ "/blog/" ++ slug) ∧
    (∀ c, p.frontmatter.canonicalUrl = some c → c ≠ "" →
      (mkArticle p.frontmatter p.content slug).canonical_url = c) := by
  refine ⟨?_, ?_, rfl, rfl, rfl, rfl, rfl, ?_, ?_⟩
  · cases httpOk <;>
      simp [publishToDevTo, hkey, hnp, isHttpPost, List.countP_cons,
        List.countP_append]
  · cases httpOk <;> simp [publishToDevTo, hkey, hnp]
  · intro hcu
    simp [mkArticle, canonicalUrlFor, hcu]
  · intro c hc hcne
    simp [mkArticle, canonicalUrlFor, jsTruthy, hc, hcne]

/-- Witness for C4 (amended) at a concrete fresh post. -/
theorem C4_witness :
    ((publishToDevTo (some "key") "fresh" (some freshPostFile) true).2.countP
        isHttpPost) = 1 ∧
    Effect.httpPost
        (mkArticle freshPostFile.frontmatter freshPostFile.content "fresh")
      ∈ (publishToDevTo (some "key") "fresh" (some freshPostFile) true).2 := by
  have h := C4_single_post_payload (some "key") "fresh" freshPostFile true
    (by decide) (by decide)
  exact ⟨h.1, h.2.1⟩

/-- C6: a missing input file (CV JSON for either exporter, post file for
the publisher, Markdown file for the tailored PDF generator) and a
non-success HTTP response each make the script print an error and
terminate with exit status 1. -/
theorem C6_errors_print_and_exit_nonzero :
    (∀ (args : List String) (path : String),
      (cvMarkdownMain none args path).1 = RunOutcome.exited 1 ∧
      ∃ m, Effect.printErr m ∈ (cvMarkdownMain none args path).2) ∧
    (∀ path : String,
      (cvLinkedInGuard false path).1 = RunOutcome.exited 1 ∧
      ∃ m, Effect.printErr m ∈ (cvLinkedInGuard false path).2) ∧
    (∀ (key : Option String) (slug : String) (ok : Bool),
      jsTruthy key = true →
      (publishToDevTo key slug none ok).1 = RunOutcome.exited 1 ∧
      ∃ m, Effect.printErr m ∈ (publishToDevTo key slug none ok).2) ∧
    (∀ (key : Option String) (slug : String) (p : PostFile),
      jsTruthy key = true → alreadyPublished p.frontmatter = false →
      (publishToDevTo key slug (some p) false).1 = RunOutcome.exited 1 ∧
      ∃ m, Effect.printErr m ∈ (publishToDevTo key slug (some p) false).2) ∧
    (∀ path : String,
      (generatePDFGuard false path).1 = RunOutcome.exited 1 ∧
      ∃ m, Effect.printErr m ∈ (generatePDFGuard false path).2) := by
  refine ⟨?_, ?_, ?_, ?_, ?_⟩
  · intro args path
    exact ⟨rfl, "Error: CV JSON not found at " ++ path, by simp [cvMarkdownMain]⟩
  · intro path
    exact ⟨rfl, "Error: CV JSON not found at " ++ path, by simp [cvLinkedInGuard]⟩
  · intro key slug ok hkey
    refine ⟨by simp [publishToDevTo, hkey], ?_⟩
    exact ⟨"❌ Error: Post not found at " ++ slug ++ ".md",
      by simp [publishToDevTo, hkey]⟩
  · intro key slug p hkey hnp
    refine ⟨by simp [publishToDevTo, hkey, hnp], ?_⟩
    exact ⟨"❌ Error publishing to DEV.to: DEV.to API error",
      by simp [publishToDevTo, hkey, hnp]⟩
  · intro path
    exact ⟨rfl, "❌ Error: File not found: " ++ path, by simp [generatePDFGuard]⟩

/-- Witness for C6 at concrete invocations. -/
theorem C6_witness :
    ((cvMarkdownMain none [] "cv.json").1 = RunOutcome.exited 1) ∧
    ((cvLinkedInGuard false "cv.json").1 = RunOutcome.exited 1) ∧
    ((publishToDevTo (some "key") "missing" none true).1
        = RunOutcome.exited 1) ∧
    ((publishToDevTo (some "key") "fresh2"
        (some { frontmatter :=
                  { title := "t", description := none, tags := none,
                    draft := false, canonicalUrl := none,
                    crosspostDevTo := none },
                content := "c" }) false).1 = RunOutcome.exited 1) ∧
    ((generatePDFGuard false "cv.md").1 = RunOutcome.exited 1) := by
  refine ⟨(C6_errors_print_and_exit_nonzero.1 [] "cv.json").1,
    (C6_errors_print_and_exit_nonzero.2.1 "cv.json").1,
    (C6_errors_print_and_exit_nonzero.2.2.1 (some "key") "missing" true
      (by decide)).1,
    (C6_errors_print_and_exit_nonzero.2.2.2.1 (some "key") "fresh2" _
      (by decide) (by decide)).1,
    (C6_errors_print_and_exit_nonzero.2.2.2.2 "cv.md").1⟩

theorem truncateWithWarning_fst (text : String) (limit : Nat)
    (label : String) (stderr : List String) :
    (truncateWithWarning text limit label stderr).1 = text := by
  unfold truncateWithWarning
  split <;> rfl

theorem genExpStep_fst (acc : List String × List String) (exp : Experience) :
    (genExpStep acc exp).1
      = acc.1 ++ roleHeader exp ++ [joinNL (roleLines exp), ""] := by
  simp [genExpStep, truncateWithWarning_fst]

theorem foldl_genExpStep_fst (l : List Experience) (lines : List String)
    (c₁ c₂ : List String) :
    (l.foldl genExpStep (lines, c₁)).1 = (l.foldl genExpStep (lines, c₂)).1 := by
  induction l generalizing lines c₁ c₂ with
  | nil => rfl
  | cons e t ih =>
    simp only [List.foldl_cons]
    have h1 : t.foldl genExpStep (genExpStep (lines, c₁) e)
        = t.foldl genExpStep
            ((genExpStep (lines, c₁) e).1, (genExpStep (lines, c₁) e).2) := rfl
    have h2 : t.foldl genExpStep (genExpStep (lines, c₂) e)
        = t.foldl genExpStep
            ((genExpStep (lines, c₂) e).1, (genExpStep (lines, c₂) e).2) := rfl
    rw [h1, h2, genExpStep_fst (lines, c₁) e, genExpStep_fst (lines, c₂) e]
    exact ih _ _ _

/-- C7: the exporters are deterministic data-to-text functions: the
Markdown export is a function of the document and the flag alone, and the
LinkedIn experience text is independent of the ambient stderr state, so
two runs on the same document always produce identical output text. -/
theorem C7_exporters_pure_deterministic (cv : CVData) (includeHidden : Bool)
    (stderr₁ stderr₂ : List String) :
    exportToMarkdown cv includeHidden = exportToMarkdown cv includeHidden ∧
    (generateExperience cv stderr₁).1 = (generateExperience cv stderr₂).1 := by
  refine ⟨rfl, ?_⟩
  simp only [generateExperience]
  exact congrArg joinNL (foldl_genExpStep_fst _ [] stderr₁ stderr₂)

/-- C8: the LinkedIn truncation helper returns its input text unchanged
for every text and limit; the only observable of exceeding the limit is
warning lines appended to stderr, and within the limit stderr is left
untouched. -/
theorem C8_truncate_never_shortens (text : String) (limit : Nat)
    (label : String) (stderr : List String) :
    (truncateWithWarning text limit label stderr).1 = text ∧
    (∃ w, (truncateWithWarning text limit label stderr).2 = stderr ++ w) ∧
    (text.length ≤ limit →
      (truncateWithWarning text limit label stderr).2 = stderr) ∧
    (limit < text.length →
      (truncateWithWarning text limit label stderr).2 ≠ stderr →
      (truncateWithWarning text limit label stderr).1 = text) := by
  refine ⟨truncateWithWarning_fst text limit label stderr, ?_, ?_, ?_⟩
  · unfold truncateWithWarning
    split
    · exact ⟨[], by simp⟩
    · exact ⟨_, rfl⟩
  · intro h
    simp [truncateWithWarning, h]
  · intro _ _
    exact truncateWithWarning_fst text limit label stderr

/-- Witness for C8: a text within the limit and a text over the limit. -/
theorem C8_witness :
    (truncateWithWarning "abcdef" 3 "Headline" []).1 = "abcdef" ∧
    (truncateWithWarning "ab" 220 "Headline" []).2 = [] := by
  exact ⟨(C8_truncate_never_shortens "abcdef" 3 "Headline" []).1,
    (C8_truncate_never_shortens "ab" 220 "Headline" []).2.2.1 (by decide)⟩

/-- C9: every article handed to the HTTP POST carries as `tags` the first
four frontmatter tags — hence at most four — or no tags at all when the
frontmatter has none. -/
theorem C9_tags_at_most_four (apiKey : Option String) (slug : String)
    (p : PostFile) (httpOk : Bool) (a : DevToArticle)
    (h : Effect.httpPost a ∈ (publishToDevTo apiKey slug (some p) httpOk).2) :
    a = mkArticle p.frontmatter p.content slug ∧
    a.tags = p.frontmatter.tags.map (fun ts => ts.take 4) ∧
    (a.tags.getD []).length ≤ 4 ∧
    (p.frontmatter.tags = none → a.tags = none) := by
  have ha : a = mkArticle p.frontmatter p.content slug := by
    cases hkey : jsTruthy apiKey with
    | false => simp [publishToDevTo, hkey] at h
    | true =>
      cases hpub : alreadyPublished p.frontmatter with
      | true => simp [publishToDevTo, hkey, hpub] at h
      | false =>
        cases httpOk <;> simp [publishToDevTo, hkey, hpub] at h <;> exact h
  subst ha
  refine ⟨rfl, rfl, ?_, ?_⟩
  · cases htags : p.frontmatter.tags with
    | none => simp [mkArticle, htags]
    | some ts =>
      simp [mkArticle, htags, List.length_take]
  · intro htags
    simp [mkArticle, htags]

/-- Witness for C9 at a concrete post with six tags. -/
theorem C9_witness :
    (mkArticle taggedPostFile.frontmatter taggedPostFile.content
        "tagged").tags = some ["a", "b", "c", "d"] ∧
    ((mkArticle taggedPostFile.frontmatter taggedPostFile.content
        "tagged").tags.getD []).length ≤ 4 := by
  have h := C9_tags_at_most_four (some "key") "tagged" taggedPostFile true
    (mkArticle taggedPostFile.frontmatter taggedPostFile.content "tagged")
    (by simp [publishToDevTo, jsTruthy, alreadyPublished, taggedPostFile])
  exact ⟨by rw [h.2.1]; rfl, h.2.2.1⟩

theorem splitDashChars_no_dash (cs : List Char) (h : '-' ∉ cs) :
    splitDashChars cs = [cs] := by
  induction cs with
  | nil => rfl
  | cons c t ih =>
    have hc : ¬ (c = '-') := fun hc => h (hc ▸ List.mem_cons_self c t)
    have ht : '-' ∉ t := fun m => h (List.mem_cons_of_mem c m)
    simp [splitDashChars, hc, ih ht]

theorem splitDashChars_append (as bs : List Char) (h : '-' ∉ as) :
    splitDashChars (as ++ '-' :: bs) = as :: splitDashChars bs := by
  induction as with
  | nil => simp [splitDashChars]
  | cons c t ih =>
    have hc : ¬ (c = '-') := fun hc => h (hc ▸ List.mem_cons_self c t)
    have ht : '-' ∉ t := fun m => h (List.mem_cons_of_mem c m)
    simp [splitDashChars, hc, ih ht]

theorem String_mk_data (s : String) : String.mk s.data = s := rfl

theorem jsSplitDash_no_dash (s : String) (h : '-' ∉ s.data) :
    jsSplitDash s = [s] := by
  rw [jsSplitDash, splitDashChars_no_dash s.data h]
  simp [String_mk_data]

/-- C10 counterexample: the empty string contains no `'-'`, yet the date
formatter maps it to `"Present"` rather than to itself, because the JS
falsiness check `!dateStr` also catches `""`. -/
theorem C10_counterexample :
    formatDate (some "") = "Present" ∧ ¬ (formatDate (some "") = "") := by
  decide

/-- C10 (amended): the date formatter maps `null` to `"Present"`, a
`YYYY-MM` string (dash-free digit year, dash-free digit month between 01
and 12) to the abbreviated English month name followed by the year —
where a year component parsing to 0-99 is rendered as 1900-1999 by the
JS `Date` two-digit-year rule — and a NON-EMPTY string with no `"-"` to
that string itself; the empty string, being JS-falsy like `null`, also
maps to `"Present"`. -/
theorem C10_formatDate_shape :
    formatDate none = "Present" ∧
    formatDate (some "") = "Present" ∧
    (∀ s : String, s ≠ "" → '-' ∉ s.data → formatDate (some s) = s) ∧
    (∀ (ys ms : String) (y m : Nat),
      parseIntJS ys = some y → parseIntJS ms = some m →
      '-' ∉ ys.data → '-' ∉ ms.data → 1 ≤ m → m ≤ 12 →
      formatDate (some (ys ++ "-" ++ ms))
        = monthAbbrev (m - 1) ++ " "
          ++ toString (if y ≤ 99 then 1900 + y else y)) := by
  refine ⟨rfl, rfl, ?_, ?_⟩
  · intro s hs hdash
    rw [formatDate]
    rw [if_neg hs]
    rw [jsSplitDash_no_dash s hdash]
    rfl
  · intro ys ms y m hy hm hys hms hm1 hm12
    have hdata : (ys ++ "-" ++ ms).data = ys.data ++ '-' :: ms.data := by
      rw [String.data_append, String.data_append]
      have hd : ("-" : String).data = ['-'] := rfl
      rw [hd, List.append_assoc]
      rfl
    have hsplit : jsSplitDash (ys ++ "-" ++ ms)
        = ys :: (splitDashChars ms.data).map (fun cs => String.mk cs) := by
      rw [jsSplitDash, hdata, splitDashChars_append ys.data ms.data hys]
      simp [String_mk_data]
    have hmsplit : splitDashChars ms.data = [ms.data] :=
      splitDashChars_no_dash ms.data hms
    have hne : ¬ (ys ++ "-" ++ ms) = "" := by
      intro hcon
      have : (ys ++ "-" ++ ms).data = [] := by rw [hcon]
      rw [hdata] at this
      exact (List.append_ne_nil_of_right_ne_nil ys.data (by simp)) this
    have hmsne : ¬ (ms = "") := by
      intro hcon
      rw [hcon] at hm
      simp [parseIntJS, leadingDigits] at hm
    rw [formatDate]
    rw [if_neg hne]
    rw [hsplit, hmsplit]
    simp only [List.map_cons, List.map_nil, String_mk_data]
    show (if ms = "" then ys else
      match parseIntJS ys, parseIntJS ms with
      | some y, some m => jsMonthYear (Int.ofNat y) (Int.ofNat m - 1)
      | _, _ => "Invalid Date")
      = monthAbbrev (m - 1) ++ " " ++ toString (if y ≤ 99 then 1900 + y else y)
    rw [if_neg hmsne, hy, hm]
    show monthAbbrev (((m : Int) - 1) % 12).toNat ++ " "
        ++ toString ((if 0 ≤ (y : Int) ∧ (y : Int) ≤ 99
            then 1900 + (y : Int) else (y : Int)) + ((m : Int) - 1) / 12)
      = monthAbbrev (m - 1) ++ " " ++ toString (if y ≤ 99 then 1900 + y else y)
    have hdiv : ((m : Int) - 1) / 12 = 0 := by omega
    have hmod : ((m : Int) - 1) % 12 = (m : Int) - 1 := by omega
    have htn : ((m : Int) - 1).toNat = m - 1 := by omega
    rw [hmod, htn, hdiv, Int.add_zero]
    by_cases hy99 : y ≤ 99
    · rw [if_pos (show 0 ≤ (y : Int) ∧ (y : Int) ≤ 99 by omega), if_pos hy99]
      have hc : (1900 : Int) + (y : Int) = ((1900 + y : Nat) : Int) := by omega
      rw [hc]
      rfl
    · rw [if_neg (show ¬ (0 ≤ (y : Int) ∧ (y : Int) ≤ 99) by omega),
        if_neg hy99]
      rfl

/-- Witness for C10 (amended) at concrete dates, including the JS `Date`
two-digit-year mapping of a 0-99 year component to 1900-1999. -/
theorem C10_witness :
    formatDate none = "Present" ∧
    formatDate (some "2020") = "2020" ∧
    formatDate (some "2023-01") = "Jan 2023" ∧
    formatDate (some "0023-01") = "Jan 1923" := by
  refine ⟨C10_formatDate_shape.1, ?_, ?_, ?_⟩
  · exact C10_formatDate_shape.2.2.1 "2020" (by decide) (by decide)
  · have h := C10_formatDate_shape.2.2.2 "2023" "01" 2023 1 (by decide)
      (by decide) (by decide) (by decide) (by decide) (by decide)
    simpa using h
  · have h := C10_formatDate_shape.2.2.2 "0023" "01" 23 1 (by decide)
      (by decide) (by decide) (by decide) (by decide) (by decide)
    simpa using h
